import Mathlib

/-!
Verification of the Empathetic Code Reviewer script.

The Python source (empathetic_code_reviewer.py) is shallowly embedded below:
pure string helpers become Lean functions on `String`/`List Char`, the
external model call becomes an explicit `Except Unit String` parameter
(`Except.ok text` for a successful completion, `Except.error ()` for a
provider failure), and the exception-based control flow of
`generate_review_report` becomes an explicit `Except String String`
body plus a catch that turns errors into the error report.  Timestamps
and the formatted processing time are taken as opaque string parameters.
-/

set_option maxRecDepth 400000

/-- Boolean substring test on character lists: true when `pat` occurs
contiguously inside the second list.  This models the Python expression
`pat in s` on strings. -/
def listIsSub (pat : List Char) : List Char → Bool
  | [] => pat.isEmpty
  | c :: cs => pat.isPrefixOf (c :: cs) || listIsSub pat cs

/-- Python `pat in s` for strings. -/
def substrIn (pat s : String) : Bool := listIsSub pat.data s.data

/-- Python `s.lower()` (ASCII case folding, as used by the script). -/
def lowerStr (s : String) : String := ⟨s.data.map Char.toLower⟩

/-- Python `s.title()` for the single lowercase words the script feeds it:
each alphabetic run gets an uppercase first letter, the rest lowercased. -/
def titleGo : Bool → List Char → List Char
  | _, [] => []
  | prevAlpha, c :: cs =>
    (if c.isAlpha then (if prevAlpha then c.toLower else c.toUpper) else c)
      :: titleGo c.isAlpha cs

/-- Python `s.title()`. -/
def pyTitle (s : String) : String := ⟨titleGo false s.data⟩

/-- Python `"\n".join(l)` (used via `chr(10).join`). -/
def join_nl : List String → String
  | [] => ""
  | [s] => s
  | s :: s2 :: rest => s ++ "\n" ++ join_nl (s2 :: rest)

theorem strData_append (a b : String) : (a ++ b).data = a.data ++ b.data := rfl

theorem isPrefixOf_append_self (l t : List Char) : l.isPrefixOf (l ++ t) = true := by
  induction l with
  | nil => simp [List.isPrefixOf]
  | cons a as ih => simp [List.isPrefixOf, ih]

theorem isPrefixOf_extend (p : List Char) :
    ∀ (l t : List Char), p.isPrefixOf l = true → p.isPrefixOf (l ++ t) = true := by
  induction p with
  | nil => intro l t _; simp [List.isPrefixOf]
  | cons a as ih =>
    intro l t h
    cases l with
    | nil => simp [List.isPrefixOf] at h
    | cons b bs =>
      simp only [List.cons_append, List.isPrefixOf, Bool.and_eq_true] at h ⊢
      exact ⟨h.1, ih bs t h.2⟩

theorem listIsSub_here (p t : List Char) : listIsSub p (p ++ t) = true := by
  cases p with
  | nil =>
    cases t with
    | nil => rfl
    | cons c cs => simp [listIsSub, List.isPrefixOf]
  | cons a as =>
    show listIsSub (a :: as) (a :: (as ++ t)) = true
    simp [listIsSub, List.isPrefixOf, isPrefixOf_append_self]

theorem listIsSub_self (p : List Char) : listIsSub p p = true := by
  have h := listIsSub_here p []
  simpa using h

theorem listIsSub_cons (p l : List Char) (c : Char)
    (h : listIsSub p l = true) : listIsSub p (c :: l) = true := by
  simp [listIsSub, h]

theorem listIsSub_append_left (x p l : List Char)
    (h : listIsSub p l = true) : listIsSub p (x ++ l) = true := by
  induction x with
  | nil => simpa using h
  | cons c cs ih =>
    show listIsSub p (c :: (cs ++ l)) = true
    exact listIsSub_cons p (cs ++ l) c ih

theorem listIsSub_append_right (p l t : List Char) :
    listIsSub p l = true → listIsSub p (l ++ t) = true := by
  induction l with
  | nil =>
    intro h
    cases p with
    | nil => simpa using listIsSub_here [] t
    | cons a as => simp [listIsSub] at h
  | cons c cs ih =>
    intro h
    rw [listIsSub, Bool.or_eq_true] at h
    show listIsSub p (c :: (cs ++ t)) = true
    rcases h with h1 | h2
    · have hp := isPrefixOf_extend p (c :: cs) t h1
      rw [listIsSub, Bool.or_eq_true]
      exact Or.inl (by simpa using hp)
    · exact listIsSub_cons p (cs ++ t) c (ih h2)

theorem strSub_app_left (p X Y : String)
    (h : substrIn p X = true) : substrIn p (X ++ Y) = true := by
  show listIsSub p.data (X ++ Y).data = true
  rw [strData_append]
  exact listIsSub_append_right p.data X.data Y.data h

theorem strSub_app_right (p X Y : String)
    (h : substrIn p Y = true) : substrIn p (X ++ Y) = true := by
  show listIsSub p.data (X ++ Y).data = true
  rw [strData_append]
  exact listIsSub_append_left X.data p.data Y.data h

theorem strSub_refl (p : String) : substrIn p p = true := listIsSub_self p.data

/-- If a predicate is false on every element of a list before index `i` and
true at index `i`, then `find?` returns the element at index `i`.  This is
the first-match semantics of iterating the keyword tables in order. -/
theorem find?_first {α : Type} (f : α → Bool) :
    ∀ (l : List α) (i : Nat) (h : i < l.length),
      f l[i] = true → (∀ (j : Nat) (hj : j < i), f l[j] = false) →
      l.find? f = some l[i] := by
  intro l
  induction l with
  | nil => intro i h; exact absurd h (by simp)
  | cons a t ih =>
    intro i h hf hprev
    cases i with
    | zero =>
      simp only [List.getElem_cons_zero] at hf ⊢
      exact List.find?_cons_of_pos t hf
    | succ i =>
      have ha : f a = false := by simpa using hprev 0 (Nat.succ_pos i)
      have htail := ih i (by simpa using Nat.lt_of_succ_lt_succ h)
        (by simpa using hf)
        (fun j hj => by simpa using hprev (j + 1) (Nat.succ_lt_succ hj))
      rw [List.find?_cons_of_neg t (by simp [ha])]
      simpa using htail

/-- Severity keyword table of the script, in its iteration order
critical, major, minor, style. -/
def severity_patterns : List (String × List String) :=
  [("critical", ["terrible", "awful", "wrong", "bad", "broken", "horrible", "disaster"]),
   ("major", ["inefficient", "slow", "poor", "unclear", "confusing", "problematic"]),
   ("minor", ["consider", "could be", "might", "perhaps", "small", "minor"]),
   ("style", ["format", "style", "convention", "naming", "whitespace", "indentation"])]

/-- One severity table entry matches when any of its keywords occurs in the
lowercased comment. -/
def severityMatches (cl : String) (entry : String × List String) : Bool :=
  entry.2.any (fun pat => substrIn pat cl)

/-- Embedding of `classify_comment_severity`. -/
def classify_comment_severity (comment : String) : String :=
  match severity_patterns.find? (severityMatches (lowerStr comment)) with
  | some entry => entry.1
  | none => "minor"

/-- Language signature-token table of the script, in its iteration order
python, javascript, java, cpp, csharp. -/
def language_patterns : List (String × List String) :=
  [("python", ["def ", "import ", "class ", ":", "elif", "lambda"]),
   ("javascript", ["function", "var ", "let ", "const ", "=>", "console.log"]),
   ("java", ["public class", "private ", "public ", "static ", "void main"]),
   ("cpp", ["#include", "std::", "cout", "endl", "int main()"]),
   ("csharp", ["using System", "public class", "Console.WriteLine", "namespace"])]

/-- Number of signature tokens of one language occurring in the lowercased
snippet (the `score` of the script). -/
def languageScore (cl : String) (entry : String × List String) : Nat :=
  entry.2.countP (fun pat => substrIn pat cl)

/-- A language qualifies when its score is at least 2. -/
def languageMatches (cl : String) (entry : String × List String) : Bool :=
  decide (2 ≤ languageScore cl entry)

/-- Embedding of `detect_programming_language`. -/
def detect_programming_language (code_snippet : String) : String :=
  match language_patterns.find? (languageMatches (lowerStr code_snippet)) with
  | some entry => entry.1
  | none => "python"

/-- Rule-based link list of `get_documentation_links` before the generic
fallback and the truncation to two entries. -/
def doc_links_raw (language t : String) : List String :=
  (if language == "python" then
    (if substrIn "efficiency" t || substrIn "performance" t then
      ["https://docs.python.org/3/tutorial/datastructures.html#list-comprehensions",
       "https://docs.python.org/3/library/itertools.html"] else [])
    ++ (if substrIn "naming" t || substrIn "convention" t then
      ["https://peps.python.org/pep-0008/#naming-conventions"] else [])
    ++ (if substrIn "boolean" t then
      ["https://docs.python.org/3/library/stdtypes.html#truth-value-testing"] else [])
    ++ (if substrIn "function" t || substrIn "method" t then
      ["https://docs.python.org/3/tutorial/controlflow.html#defining-functions"] else [])
  else if language == "javascript" then
    (if substrIn "efficiency" t then
      ["https://developer.mozilla.org/en-US/docs/Web/JavaScript/Reference/Global_Objects/Array"] else [])
    ++ (if substrIn "naming" t then
      ["https://developer.mozilla.org/en-US/docs/MDN/Writing_guidelines/Writing_style_guide/Code_style_guide/JavaScript#naming_conventions"] else [])
  else [])

/-- Embedding of `get_documentation_links`: the rule-based links, with the
generic best-practices link appended when no rule matched, truncated to the
first two entries. -/
def get_documentation_links (language topic : String) : List String :=
  (if (doc_links_raw language (lowerStr topic)).isEmpty then
      doc_links_raw language (lowerStr topic)
        ++ ["https://en.wikipedia.org/wiki/Software_engineering_best_practices"]
    else doc_links_raw language (lowerStr topic)).take 2

/-- Per-comment block of `_generate_fallback_analysis`: each original
comment echoed with the generic supportive sentence, joined by newlines. -/
def fallback_comment_block (review_comments : List String) : String :=
  join_nl (review_comments.map (fun comment =>
    "**Original**: " ++ comment
      ++ "\n**Supportive Approach**: Let\x27s explore how we can improve this area together.\n"))

/-- Embedding of `_generate_fallback_analysis`. -/
def generate_fallback_analysis (code_snippet : String) (review_comments : List String) : String :=
  "\n# Empathetic Code Review Report\n\n## Analysis Error Recovery\n\nI encountered an issue while generating the full empathetic analysis. Here\x27s a basic supportive framework:\n\n### Code Review Comments Transformation\n\n"
  ++ fallback_comment_block review_comments
  ++ "\n\n### Code Snippet Analysis\n```python\n"
  ++ code_snippet
  ++ "\n```\n\n### Encouragement\nEvery developer is on a learning journey, and code reviews are valuable opportunities for growth. The suggestions provided are meant to help you write even better code and develop stronger programming skills.\n\n*Note: This is a fallback analysis due to API limitations. The full system would provide detailed, empathetic feedback for each comment.*\n"

/-- Outcome of the single external model call: the completion text on
success, or a provider failure. -/
abbrev ProviderResult := Except Unit String

/-- Embedding of `analyze_code_review`: return the model completion, or the
fallback analysis when the provider call raised. -/
def analyze_code_review (code_snippet : String) (review_comments : List String)
    (prov : ProviderResult) : String :=
  match prov with
  | Except.ok text => text
  | Except.error _ => generate_fallback_analysis code_snippet review_comments

/-- The success report assembled by `generate_review_report` (lines 313 to
339 of the script), with the two timestamps and the formatted processing
time taken as string parameters. -/
def report_template (generated_at language : String) (comment_count : Nat)
    (analysis : String) (processing_time : String) : String :=
  "# Empathetic Code Review Report\n\n**Generated:** " ++ generated_at
  ++ "\n**Language Detected:** " ++ pyTitle language
  ++ "\n**Comments Analyzed:** " ++ toString comment_count
  ++ "\n**Processing Time:** " ++ processing_time
  ++ " seconds\n\n---\n\n" ++ analysis
  ++ "\n\n---\n\n## Review Summary & Encouragement\n\nThis code review represents an excellent opportunity for growth and learning. Every piece of feedback is meant to help you become an even stronger developer. Remember that all experienced developers have been through similar learning experiences, and each suggestion is a stepping stone toward writing more robust, maintainable code.\n\nKeep up the great work, stay curious, and remember that coding is a journey of continuous improvement. Your willingness to receive feedback shows professionalism and dedication to your craft.\n\n## Technical Details\n- **Analysis Model:** GPT-4 with Empathetic Mentoring Prompts\n- **Contextual Awareness:** Severity-based tone adaptation\n- **Educational Focus:** Software engineering principles and best practices\n- **Code Quality:** Production-ready improvements with explanations\n\n*This empathetic analysis was generated by the Empathetic Code Reviewer - Mission 1 Solution, designed to transform critical feedback into constructive growth opportunities.*\n"

/-- The error report produced by the `except` branch of
`generate_review_report` (lines 349 to 381 of the script). -/
def error_report (error_time error_details : String) : String :=
  "# Empathetic Code Review - Error Report\n\n**Error Time:** " ++ error_time
  ++ "\n**Error Details:** " ++ error_details
  ++ "\n\n## Error Analysis\n\nThe Empathetic Code Reviewer encountered an issue while processing your request. This could be due to:\n\n### Possible Causes\n- **Input Format**: Ensure JSON contains \x27code_snippet\x27 and \x27review_comments\x27 keys\n- **API Limits**: OpenAI API quotas or rate limits may have been exceeded\n- **Network Issues**: Temporary connectivity problems\n- **Invalid Code**: Code snippet may contain parsing issues\n\n### Recommended Solutions\n1. **Verify Input Format**: Ensure your input follows the required JSON structure\n2. **Check API Key**: Verify your OpenAI API key is valid and has available credits\n3. **Try Again**: Temporary issues often resolve with retry\n4. **Use Demo Mode**: Run the demo version to see expected output format\n\n### Example Input Format\n```json\n\x7b\n  \"code_snippet\": \"def example_function():\n    return \x27Hello World\x27\",\n  \"review_comments\": [\"This function could be improved\", \"Consider adding documentation\"]\n\x7d\n```\n\nEven when encountering technical issues, remember that the goal of code review is always to support your growth as a developer. Technical difficulties are just part of the programming journey!\n\n*Error handling by Empathetic Code Reviewer - Mission 1 Solution*\n"

/-- The `review_comments` entry of the input JSON object: absent, present
but not a list, or a list of comment strings. -/
inductive ReviewComments where
  | missing : ReviewComments
  | nonList : ReviewComments
  | commentList : List String → ReviewComments
deriving DecidableEq, Repr

/-- The parsed input JSON object, as far as the script inspects it. -/
structure InputData where
  code_snippet : Option String
  review_comments : ReviewComments
deriving DecidableEq, Repr

/-- Body of the `try` block of `generate_review_report`: the validation
errors become `Except.error` with the `ValueError` message, a valid input
yields the assembled success report. -/
def gen_body (input : InputData) (prov : ProviderResult) (ts pt : String) :
    Except String String :=
  match input.code_snippet, input.review_comments with
  | none, _ =>
    Except.error "Input must contain \x27code_snippet\x27 and \x27review_comments\x27 keys"
  | some _, ReviewComments.missing =>
    Except.error "Input must contain \x27code_snippet\x27 and \x27review_comments\x27 keys"
  | some _, ReviewComments.nonList =>
    Except.error "\x27review_comments\x27 must be a list"
  | some code, ReviewComments.commentList cs =>
    Except.ok (report_template ts (detect_programming_language code) cs.length
      (analyze_code_review code cs prov) pt)

/-- Embedding of `generate_review_report`: run the body and catch every
error, converting it into the error report string. -/
def generate_review_report (input : InputData) (prov : ProviderResult)
    (ts pt : String) : String :=
  match gen_body input prov ts pt with
  | Except.ok report => report
  | Except.error msg => error_report ts msg

/-- The observable outcome of one run of `main`: an early return without an
output file (usage text, missing input file, missing credential, malformed
JSON), or a written report file with the given content. -/
inductive MainOutcome where
  | usage : MainOutcome
  | fileMissing : MainOutcome
  | keyMissing : MainOutcome
  | badJson : MainOutcome
  | wrote : String → MainOutcome
deriving DecidableEq, Repr

/-- Embedding of `main`: the argument-count check, the input-file check,
the credential check, JSON parsing, and finally report generation followed
unconditionally by writing the report to the output file. -/
def main_run (argc_ok file_exists : Bool) (api_key : Option String)
    (parsed : Option InputData) (prov : ProviderResult) (ts pt : String) : MainOutcome :=
  if argc_ok = false then MainOutcome.usage
  else if file_exists = false then MainOutcome.fileMissing
  else
    match api_key with
    | none => MainOutcome.keyMissing
    | some _ =>
      match parsed with
      | none => MainOutcome.badJson
      | some input => MainOutcome.wrote (generate_review_report input prov ts pt)

/-- Every comment of the list occurs verbatim inside the fallback
per-comment block. -/
theorem echo_in_block :
    ∀ (cs : List String) (c : String), c ∈ cs →
      substrIn c (fallback_comment_block cs) = true := by
  intro cs
  induction cs with
  | nil => intro c hc; exact absurd hc (List.not_mem_nil c)
  | cons c0 t ih =>
    intro c hc
    rcases List.mem_cons.mp hc with h | h
    · subst h
      unfold fallback_comment_block
      cases t with
      | nil =>
        simp only [List.map_cons, List.map_nil, join_nl]
        apply strSub_app_left
        apply strSub_app_right
        exact strSub_refl c
      | cons t0 ts =>
        simp only [List.map_cons, join_nl]
        apply strSub_app_left
        apply strSub_app_left
        apply strSub_app_left
        apply strSub_app_right
        exact strSub_refl c
    · cases t with
      | nil => exact absurd h (List.not_mem_nil c)
      | cons t0 ts =>
        unfold fallback_comment_block
        simp only [List.map_cons, join_nl]
        apply strSub_app_right
        exact ih c h

/-- Claim C1: classify_comment_severity does a case-insensitive substring
search against the four keyword sets in the fixed priority order critical,
major, minor, style, returning the tag of the first set with any matching
keyword; in particular any comment containing a critical-set keyword is
classified critical. -/
theorem claim_C1_severity_priority :
    (∀ (comment : String) (i : Nat) (h : i < severity_patterns.length),
        severityMatches (lowerStr comment) severity_patterns[i] = true →
        (∀ (j : Nat) (hj : j < i),
          severityMatches (lowerStr comment) severity_patterns[j] = false) →
        classify_comment_severity comment = severity_patterns[i].1)
    ∧ (∀ comment : String,
        (∃ pat ∈ ["terrible", "awful", "wrong", "bad", "broken", "horrible", "disaster"],
            substrIn pat (lowerStr comment) = true) →
        classify_comment_severity comment = "critical") := by
  have part1 : ∀ (comment : String) (i : Nat) (h : i < severity_patterns.length),
      severityMatches (lowerStr comment) severity_patterns[i] = true →
      (∀ (j : Nat) (hj : j < i),
        severityMatches (lowerStr comment) severity_patterns[j] = false) →
      classify_comment_severity comment = severity_patterns[i].1 := by
    intro comment i h hm hprev
    unfold classify_comment_severity
    rw [find?_first (severityMatches (lowerStr comment)) severity_patterns i h hm hprev]
  refine ⟨part1, ?_⟩
  intro comment hex
  have hm : severityMatches (lowerStr comment) severity_patterns[0] = true := by
    rcases hex with ⟨pat, hmem, hsub⟩
    show (severity_patterns[0].2.any fun p => substrIn p (lowerStr comment)) = true
    rw [List.any_eq_true]
    exact ⟨pat, by simpa [severity_patterns] using hmem, hsub⟩
  have hres := part1 comment 0 (by simp [severity_patterns]) hm
    (fun j hj => absurd hj (Nat.not_lt_zero j))
  simpa [severity_patterns] using hres

/-- Witness for C1: a comment holding both a critical-set keyword and a
style-set keyword is classified critical. -/
theorem claim_C1_witness :
    classify_comment_severity "this is terrible but minor style" = "critical" :=
  claim_C1_severity_priority.2 "this is terrible but minor style"
    ⟨"terrible", by simp, by decide⟩

/-- Claim C5: a comment containing no keyword from any of the four severity
sets is classified minor. -/
theorem claim_C5_default_minor :
    ∀ comment : String,
      (∀ entry ∈ severity_patterns, ∀ pat ∈ entry.2,
          substrIn pat (lowerStr comment) = false) →
      classify_comment_severity comment = "minor" := by
  intro comment hnone
  unfold classify_comment_severity
  have hfind : severity_patterns.find? (severityMatches (lowerStr comment)) = none := by
    rw [List.find?_eq_none]
    intro entry hmem
    show ¬ (entry.2.any fun pat => substrIn pat (lowerStr comment)) = true
    rw [Bool.not_eq_true, List.any_eq_false]
    intro pat hpat
    simp [hnone entry hmem pat hpat]
  rw [hfind]

/-- Witness for C5: a keyword-free comment is classified minor. -/
theorem claim_C5_witness : classify_comment_severity "looks fine to me" = "minor" :=
  claim_C5_default_minor "looks fine to me" (by decide)

/-- Claim C2: detect_programming_language counts case-insensitive token
matches per language and returns the first language in the fixed iteration
order python, javascript, java, cpp, csharp whose count reaches 2; when
every language stays below 2 it returns python. -/
theorem claim_C2_language_detection :
    (∀ code_snippet : String,
        (∀ entry ∈ language_patterns,
            languageScore (lowerStr code_snippet) entry < 2) →
        detect_programming_language code_snippet = "python")
    ∧ (∀ (code_snippet : String) (i : Nat) (h : i < language_patterns.length),
        2 ≤ languageScore (lowerStr code_snippet) language_patterns[i] →
        (∀ (j : Nat) (hj : j < i),
            languageScore (lowerStr code_snippet) language_patterns[j] < 2) →
        detect_programming_language code_snippet = language_patterns[i].1) := by
  constructor
  · intro code hlow
    unfold detect_programming_language
    have hfind : language_patterns.find? (languageMatches (lowerStr code)) = none := by
      rw [List.find?_eq_none]
      intro entry hmem
      show ¬ languageMatches (lowerStr code) entry = true
      unfold languageMatches
      simp only [decide_eq_true_eq]
      exact Nat.not_le.mpr (hlow entry hmem)
    rw [hfind]
  · intro code i h hge hprev
    unfold detect_programming_language
    have hm : languageMatches (lowerStr code) language_patterns[i] = true := by
      unfold languageMatches
      exact decide_eq_true hge
    have hp : ∀ (j : Nat) (hj : j < i),
        languageMatches (lowerStr code) language_patterns[j] = false := by
      intro j hj
      unfold languageMatches
      exact decide_eq_false (Nat.not_le.mpr (hprev j hj))
    rw [find?_first (languageMatches (lowerStr code)) language_patterns i h hm hp]

/-- Witness for C2: both conjuncts at concrete snippets, the default case
on a snippet with no language reaching two token matches, and the
first-match case on a snippet where python itself reaches two. -/
theorem claim_C2_witness :
    detect_programming_language "x=1" = "python"
    ∧ detect_programming_language "def f():\n    import os" = "python" := by
  constructor
  · exact claim_C2_language_detection.1 "x=1" (by decide)
  · have h := claim_C2_language_detection.2 "def f():\n    import os" 0
      (by simp [language_patterns]) (by decide)
      (fun j hj => absurd hj (Nat.not_lt_zero j))
    simpa [language_patterns] using h

/-- Claim C6: the given Java snippet is detected as java. -/
theorem claim_C6_java_snippet :
    detect_programming_language
      "public class Foo \x7b public static void main(String[] a) \x7b\x7d \x7d" = "java" := by
  decide

/-- Claim C3, counterexample: on an input missing both required keys the run
does write an output file, containing the error report, contradicting the
claim that no output file is written. -/
theorem claim_C3_counterexample :
    main_run true true (some "key") (some ⟨none, ReviewComments.missing⟩)
        (Except.ok "model output") "TS" "0.00"
      = MainOutcome.wrote (error_report "TS"
          "Input must contain \x27code_snippet\x27 and \x27review_comments\x27 keys") := rfl

/-- Claim C3, amended: a missing key or a non-list review_comments is
detected before any model call (the resulting report does not depend on the
provider outcome, which stays universally quantified) and the run produces
the error report; however main still writes that error report to the output
file rather than halting with no file. -/
theorem claim_C3_amended :
    ∀ (input : InputData) (prov : ProviderResult) (ts pt key : String),
      ((input.code_snippet = none ∨ input.review_comments = ReviewComments.missing) →
        generate_review_report input prov ts pt
          = error_report ts
              "Input must contain \x27code_snippet\x27 and \x27review_comments\x27 keys")
      ∧ (∀ code, input.code_snippet = some code →
          input.review_comments = ReviewComments.nonList →
          generate_review_report input prov ts pt
            = error_report ts "\x27review_comments\x27 must be a list")
      ∧ main_run true true (some key) (some input) prov ts pt
          = MainOutcome.wrote (generate_review_report input prov ts pt) := by
  intro input prov ts pt key
  rcases input with ⟨cf, rf⟩
  refine ⟨?_, ?_, rfl⟩
  · intro hval
    rcases hval with h | h
    · cases cf with
      | none => cases rf <;> rfl
      | some c => exact absurd h (by simp)
    · cases rf with
      | missing => cases cf <;> rfl
      | nonList => exact absurd h (by simp)
      | commentList cs => exact absurd h (by simp)
  · intro code hcode hrc
    cases rf with
    | missing => exact absurd hrc (by simp)
    | commentList cs => exact absurd hrc (by simp)
    | nonList =>
      cases cf with
      | none => exact absurd hcode (by simp)
      | some c => rfl

/-- Witness for C3 amended, at the two validation failures: missing keys and
a non-list review_comments. -/
theorem claim_C3_witness :
    generate_review_report ⟨none, ReviewComments.missing⟩ (Except.ok "m") "TS" "PT"
        = error_report "TS"
            "Input must contain \x27code_snippet\x27 and \x27review_comments\x27 keys"
    ∧ generate_review_report ⟨some "x=1", ReviewComments.nonList⟩ (Except.ok "m") "TS" "PT"
        = error_report "TS" "\x27review_comments\x27 must be a list" :=
  ⟨(claim_C3_amended ⟨none, ReviewComments.missing⟩ (Except.ok "m") "TS" "PT" "key").1
      (Or.inl rfl),
   (claim_C3_amended ⟨some "x=1", ReviewComments.nonList⟩ (Except.ok "m") "TS" "PT" "key").2.1
      "x=1" rfl rfl⟩

/-- Claim C4: when the provider call fails, the assembled report is the
normal header and footer around the fallback analysis, the fallback echoes
every original comment with the generic supportive sentence, and the run
completes, writing the report, instead of raising. -/
theorem claim_C4_fallback_report :
    ∀ (code_snippet : String) (review_comments : List String) (ts pt key : String),
      generate_review_report
          ⟨some code_snippet, ReviewComments.commentList review_comments⟩
          (Except.error ()) ts pt
        = report_template ts (detect_programming_language code_snippet)
            review_comments.length
            (generate_fallback_analysis code_snippet review_comments) pt
      ∧ (∀ comment ∈ review_comments,
          substrIn comment
            (generate_fallback_analysis code_snippet review_comments) = true)
      ∧ main_run true true (some key)
            (some ⟨some code_snippet, ReviewComments.commentList review_comments⟩)
            (Except.error ()) ts pt
          = MainOutcome.wrote (generate_review_report
              ⟨some code_snippet, ReviewComments.commentList review_comments⟩
              (Except.error ()) ts pt) := by
  intro code cs ts pt key
  refine ⟨rfl, ?_, rfl⟩
  intro comment hmem
  unfold generate_fallback_analysis
  apply strSub_app_left
  apply strSub_app_left
  apply strSub_app_left
  apply strSub_app_right
  exact echo_in_block cs comment hmem

/-- Witness for C4: a concrete comment occurs verbatim inside the fallback
analysis built for it. -/
theorem claim_C4_witness :
    substrIn "This is bad"
      (generate_fallback_analysis "x=1" ["This is bad"]) = true :=
  (claim_C4_fallback_report "x=1" ["This is bad"] "TS" "PT" "key").2.1 "This is bad"
    (List.mem_cons_self "This is bad" [])

/-- Claim C7, counterexample: the raw report text for the empty-comments
input does not contain the literal text Comments Analyzed: 0, because the
Markdown bold markers sit between the label and the count. -/
theorem claim_C7_counterexample :
    substrIn "Comments Analyzed: 0"
      (generate_review_report ⟨some "x=1", ReviewComments.commentList []⟩
        (Except.ok "Great work overall!") "2025-01-01 12:00:00" "0.00") = false := by
  decide

/-- Claim C7, amended: for the input with code_snippet x=1 and an empty
review_comments list, the assembled report still contains the header line,
the bold metadata line with a zero count, and the footer section, and the
fallback transformed-comments block is empty; the raw text without the bold
markers does not occur. -/
theorem claim_C7_amended :
    ∀ (prov : ProviderResult) (ts pt : String),
      substrIn "# Empathetic Code Review Report"
          (generate_review_report ⟨some "x=1", ReviewComments.commentList []⟩ prov ts pt)
        = true
      ∧ substrIn "**Comments Analyzed:** 0"
          (generate_review_report ⟨some "x=1", ReviewComments.commentList []⟩ prov ts pt)
        = true
      ∧ substrIn "## Review Summary & Encouragement"
          (generate_review_report ⟨some "x=1", ReviewComments.commentList []⟩ prov ts pt)
        = true
      ∧ fallback_comment_block [] = "" := by
  intro prov ts pt
  have hgen : generate_review_report ⟨some "x=1", ReviewComments.commentList []⟩ prov ts pt
      = report_template ts (detect_programming_language "x=1") 0
          (analyze_code_review "x=1" [] prov) pt := rfl
  refine ⟨?_, ?_, ?_, rfl⟩
  · rw [hgen]
    unfold report_template
    apply strSub_app_left
    apply strSub_app_left
    apply strSub_app_left
    apply strSub_app_left
    apply strSub_app_left
    apply strSub_app_left
    apply strSub_app_left
    apply strSub_app_left
    apply strSub_app_left
    apply strSub_app_left
    decide
  · rw [hgen]
    unfold report_template
    apply strSub_app_left
    apply strSub_app_left
    apply strSub_app_left
    apply strSub_app_left
    apply strSub_app_left
    rw [String.append_assoc]
    apply strSub_app_right
    decide
  · rw [hgen]
    unfold report_template
    apply strSub_app_right
    decide

/-- Claim C8, counterexample: a successful run on the snippet x=1 produces
a file containing the title-cased Python but not the lowercase tag python
returned by detect_programming_language, so the written output does not
contain the literal detected-language string. -/
theorem claim_C8_counterexample :
    substrIn (detect_programming_language "x=1")
      (generate_review_report ⟨some "x=1", ReviewComments.commentList ["ok"]⟩
        (Except.ok "Looks good to me.") "2025-01-01 12:00:00" "0.10") = false := by
  decide

/-- Claim C8, amended: for every valid input the written output contains the
title-cased detected-language string and the decimal comment count; the
lowercase language tag itself need not occur. -/
theorem claim_C8_amended :
    ∀ (code_snippet : String) (review_comments : List String) (prov : ProviderResult)
      (ts pt key content : String),
      main_run true true (some key)
          (some ⟨some code_snippet, ReviewComments.commentList review_comments⟩) prov ts pt
        = MainOutcome.wrote content →
      substrIn (pyTitle (detect_programming_language code_snippet)) content = true
      ∧ substrIn (toString review_comments.length) content = true := by
  intro code cs prov ts pt key content hw
  have hmain : MainOutcome.wrote (generate_review_report
      ⟨some code, ReviewComments.commentList cs⟩ prov ts pt) = MainOutcome.wrote content := hw
  have hc : content = report_template ts (detect_programming_language code) cs.length
      (analyze_code_review code cs prov) pt := by
    injection hmain with h
    exact h.symm
  subst hc
  constructor
  · unfold report_template
    apply strSub_app_left
    apply strSub_app_left
    apply strSub_app_left
    apply strSub_app_left
    apply strSub_app_left
    apply strSub_app_left
    apply strSub_app_left
    apply strSub_app_right
    exact strSub_refl _
  · unfold report_template
    apply strSub_app_left
    apply strSub_app_left
    apply strSub_app_left
    apply strSub_app_left
    apply strSub_app_left
    apply strSub_app_right
    exact strSub_refl _

/-- Witness for C8 amended, at a concrete successful run. -/
theorem claim_C8_witness :
    substrIn (pyTitle (detect_programming_language "x=1"))
        (generate_review_report ⟨some "x=1", ReviewComments.commentList ["ok"]⟩
          (Except.ok "fine") "TS" "PT") = true
    ∧ substrIn (toString (["ok"] : List String).length)
        (generate_review_report ⟨some "x=1", ReviewComments.commentList ["ok"]⟩
          (Except.ok "fine") "TS" "PT") = true :=
  claim_C8_amended "x=1" ["ok"] (Except.ok "fine") "TS" "PT" "key" _ rfl

/-- Claim C9: generate_review_report is total on every input shape; it
returns either the assembled success report or the error report produced by
the catch-all handler, and never propagates a validation failure. -/
theorem claim_C9_no_propagation :
    ∀ (input : InputData) (prov : ProviderResult) (ts pt : String),
      (∃ code cs, input = ⟨some code, ReviewComments.commentList cs⟩
        ∧ generate_review_report input prov ts pt
            = report_template ts (detect_programming_language code) cs.length
                (analyze_code_review code cs prov) pt)
      ∨ (∃ msg, generate_review_report input prov ts pt = error_report ts msg) := by
  intro input prov ts pt
  rcases input with ⟨cf, rf⟩
  cases cf with
  | none => exact Or.inr ⟨_, rfl⟩
  | some code =>
    cases rf with
    | missing => exact Or.inr ⟨_, rfl⟩
    | nonList => exact Or.inr ⟨_, rfl⟩
    | commentList cs => exact Or.inl ⟨code, cs, rfl, rfl⟩

/-- Claim C10: get_documentation_links always returns between one and two
links, and when no language or topic rule matches it returns exactly the
generic best-practices link. -/
theorem claim_C10_doc_links_bounds :
    ∀ (language topic : String),
      1 ≤ (get_documentation_links language topic).length
      ∧ (get_documentation_links language topic).length ≤ 2
      ∧ (doc_links_raw language (lowerStr topic) = [] →
          get_documentation_links language topic
            = ["https://en.wikipedia.org/wiki/Software_engineering_best_practices"]) := by
  intro language topic
  unfold get_documentation_links
  cases hraw : doc_links_raw language (lowerStr topic) with
  | nil => simp
  | cons a l =>
    refine ⟨?_, ?_, ?_⟩
    · simp [List.length_take]
    · simp [List.length_take]
    · intro hcontr
      exact absurd hcontr (by simp)

/-- Witness for C10: an unknown language with an unmatched topic yields
exactly the generic link. -/
theorem claim_C10_witness :
    get_documentation_links "ruby" "anything"
      = ["https://en.wikipedia.org/wiki/Software_engineering_best_practices"] :=
  (claim_C10_doc_links_bounds "ruby" "anything").2.2 (by decide)
